import Mathlib

/-!
Shallow embedding of `src/chatbot_ui/orchestrator.py` (KemahBot-V3).

JSON-like values returned by the retrieval API are modelled by `JValue`;
Python numbers (int and float alike) are modelled by `Rat`.  Python's
truth-value test is `truthy`, `dict.get` is `jget` (absent key ↦ `null`,
matching Python's `None`), and the `a or b` idiom is `pyOr`.

The generation backend (`model` global / `call_llm`) is modelled as an
oracle `LLM : String → LLMResult` mapping a prompt to either an exception
(`raises`) or the extracted text.  Functions that may invoke the backend
additionally return the list of prompts actually sent, so "never invokes
the backend" is the statement that this list is empty.

The retrieval HTTP call is modelled by its observable outcome
`HttpOutcome`: an exception (connection failure / timeout), or a response
with a status code and a body that either parses as JSON (`some v`) or
does not (`none`).
-/

inductive JValue where
  | null
  | bool (b : Bool)
  | num (q : Rat)
  | str (s : String)
  | arr (elems : List JValue)
  | obj (fields : List (String × JValue))

/-- Python truth-value test: `None`, `False`, `0`, `""`, `[]`, `{}` are falsy. -/
def truthy : JValue → Bool
  | .null => false
  | .bool b => b
  | .num q => q != 0
  | .str s => !s.isEmpty
  | .arr l => !l.isEmpty
  | .obj l => !l.isEmpty

/-- Python `a or b`. -/
def pyOr (a b : JValue) : JValue := if truthy a then a else b

/-- `item.get(k)` on a dict; missing key gives `None` (`null`).
Only ever applied to values already known to be objects
(the source guards with `isinstance(p, dict)` or lets `.get` on a
non-dict raise, which is modelled at the call site). -/
def jget (v : JValue) (k : String) : JValue :=
  match v with
  | .obj fs =>
    match fs.find? (fun p => p.1 == k) with
    | some p => p.2
    | none => .null
  | _ => .null

/-- Python `s.strip()`: drop whitespace from both ends. -/
def pyStrip (s : String) : String :=
  String.mk (((s.toList.dropWhile Char.isWhitespace).reverse.dropWhile Char.isWhitespace).reverse)

/-- Digit characters to the natural number they denote. -/
def digitsToNat (cs : List Char) : Nat :=
  cs.foldl (fun a c => a * 10 + (c.toNat - 48)) 0

/-- Python `float(s)` restricted to plain decimal literals:
optional surrounding whitespace, optional sign, digits with at most one
decimal point and at least one digit.  (Exponents and the named special
values are not exercised by this code base.) -/
def parsePyFloat (s : String) : Option Rat :=
  let cs := (pyStrip s).toList
  let signed : Int × List Char :=
    match cs with
    | '+' :: rest => (1, rest)
    | '-' :: rest => (-1, rest)
    | _ => (1, cs)
  let sign := signed.1
  let body := signed.2
  let ip := body.takeWhile (fun c => c ≠ '.')
  let rest := body.drop ip.length
  match rest with
  | [] =>
    if !ip.isEmpty && ip.all Char.isDigit then
      some (mkRat (sign * (digitsToNat ip : Int)) 1)
    else none
  | _ :: fp =>
    if (!ip.isEmpty || !fp.isEmpty) && ip.all Char.isDigit && fp.all Char.isDigit then
      some (mkRat (sign * ((digitsToNat ip : Int) * 10 ^ fp.length + (digitsToNat fp : Int))) (10 ^ fp.length))
    else none

/-- Python `float(h)` on a JSON value: numbers pass through, booleans
become 0/1, strings are parsed; `None`, lists and dicts raise
(`TypeError`), modelled as `none`. -/
def toFloat : JValue → Option Rat
  | .num q => some q
  | .bool b => some (if b then 1 else 0)
  | .str s => parsePyFloat s
  | _ => none

/-- `TOP_K = 3` from the source configuration. -/
def TOP_K : Nat := 3

/-- Minimum of a non-empty list, Python's `min`; junk value on `[]`
(the source only calls it on a non-empty list). -/
def listMin : List Rat → Rat
  | [] => 0
  | x :: xs => xs.foldl min x

/-- One price entry of `price_items`: the source takes
`p.get("harga") or p.get("price") or p.get("harga_rupiah")` and tries
`float` on it; a non-dict entry is skipped by the `isinstance` guard. -/
def entryPrice (p : JValue) : Option Rat :=
  match p with
  | .obj _ => toFloat (pyOr (jget p "harga") (pyOr (jget p "price") (jget p "harga_rupiah")))
  | _ => none

/-- The prices of the entries that parse numerically. -/
def numericPrices (ps : List JValue) : List Rat :=
  ps.filterMap entryPrice

/-- `harga_termurah` from the alias-resolved `price_items` value
(orchestrator.py lines 97-110): if it is a non-empty list, the minimum
of the numerically parseable entry prices, `None` when nothing parses;
otherwise `None`. -/
def computeHarga (price_items : JValue) : Option Rat :=
  match price_items with
  | .arr ps =>
    if ps.isEmpty then none
    else
      let numeric := numericPrices ps
      if numeric.isEmpty then none else some (listMin numeric)
  | _ => none

structure CleanedRecord where
  nama : JValue
  lokasi : JValue
  rating : JValue
  fasilitas : JValue
  harga_termurah : Option Rat

/-- Field resolution of one raw record, the body of the `try` block of
`simplify_context`.  `.get` on a non-dict raises `AttributeError`, the
only statement in the block that can raise; the `except` clause skips
the record, so a non-object yields `none`. -/
def cleanItem (item : JValue) : Option CleanedRecord :=
  match item with
  | .obj _ =>
    some
      { nama := pyOr (jget item "name") (pyOr (jget item "nama") (jget item "Nama_Tempat"))
        lokasi := pyOr (jget item "location") (pyOr (jget item "lokasi") (jget item "Lokasi"))
        rating := pyOr (jget item "avg_rating") (pyOr (jget item "Avg_Rating") (jget item "rating"))
        fasilitas := pyOr (jget item "facilities") (pyOr (jget item "Facilities") (.str ""))
        harga_termurah := computeHarga (pyOr (jget item "price_items") (pyOr (jget item "Price_Items") (.arr []))) }
  | _ => none

/-- The loop of `simplify_context` over the already-sliced list:
append the cleaned record, or skip the item when extraction raised. -/
def simplifyLoop : List JValue → List CleanedRecord
  | [] => []
  | item :: rest =>
    match cleanItem item with
    | some r => r :: simplifyLoop rest
    | none => simplifyLoop rest

/-- `simplify_context(api_list)`: iterate over `api_list[:TOP_K]`. -/
def simplify_context (api_list : List JValue) : List CleanedRecord :=
  simplifyLoop (api_list.take TOP_K)

/-- Python `s.lower()` (ASCII case mapping, the range `re` keeps anyway). -/
def lowerStr (s : String) : String := String.mk (s.toList.map Char.toLower)

/-- Python `s.split()`: split on whitespace runs, no empty tokens. -/
def splitWsAux : List Char → List Char → List String
  | [], acc => if acc.isEmpty then [] else [String.mk acc.reverse]
  | c :: rest, acc =>
    if c.isWhitespace then
      if acc.isEmpty then splitWsAux rest [] else String.mk acc.reverse :: splitWsAux rest []
    else splitWsAux rest (c :: acc)

def pySplit (s : String) : List String := splitWsAux s.toList []

/-- Python `sep.join(l)`. -/
def pyJoin (sep : String) : List String → String
  | [] => ""
  | [x] => x
  | x :: y :: rest => x ++ sep ++ pyJoin sep (y :: rest)

/-- Outcome of one generation-backend call, as observed by this code:
either the call raises, or `call_llm` extracts some text (possibly `""`,
the `NO_OUTPUT` case). -/
inductive LLMResult where
  | raises
  | text (s : String)

/-- The generation backend (`model` global plus the response-text
extraction of `call_llm`), as an oracle from the prompt sent to the
observed outcome. -/
abbrev LLM : Type := String → LLMResult

/-- `call_llm(prompt)`: raises iff the backend raises, otherwise returns
the extracted text. -/
def call_llm (llm : LLM) (prompt : String) : Except Unit String :=
  match llm prompt with
  | .raises => .error ()
  | .text t => .ok t

/-- Characters the keyword sanitizer keeps (`[^0-9a-z\s-]` is replaced
by a space). -/
def kwChar (c : Char) : Bool :=
  ('0' ≤ c && c ≤ '9') || ('a' ≤ c && c ≤ 'z') || c.isWhitespace || c == '-'

/-- `re.sub(r"[^0-9a-z\s\-]", " ", kws)`. -/
def sanitizeKw (s : String) : String :=
  String.mk (s.toList.map (fun c => if kwChar c then c else ' '))

/-- The naive tokenization fallback (orchestrator.py lines 179-180 and
199-200): lowercase tokens longer than 2 characters, first 8, joined
with spaces; sentinel "kemah" when that is empty. -/
def naiveKeywords (q : String) : String :=
  let tokens := ((pySplit q).filter (fun t => t.length > 2)).map lowerStr
  let s := pyJoin " " (tokens.take 8)
  if s.isEmpty then "kemah" else s

/-- The keyword-extraction prompt (lines 182-186). -/
def kwPrompt (q : String) : String :=
  "Ekstrak HANYA keyword penting (lokasi, fasilitas, suasana) " ++
  "dari pertanyaan berikut. Jawab HANYA keyword dipisah spasi.\n\n" ++
  "Pertanyaan: " ++ q ++ "\n\nKeyword:"

/-- `extract_keywords_from_query(user_query)` given the backend state
`m` (`none` = `model is None`).  Returns the keyword string together
with the list of prompts sent to the backend. -/
def extract_keywords_from_query (m : Option LLM) (user_query : String) : String × List String :=
  let q := pyStrip user_query
  if q.isEmpty then ("kemah", [])
  else
    match m with
    | none => (naiveKeywords q, [])
    | some llm =>
      let prompt := kwPrompt q
      match call_llm llm prompt with
      | .error _ => (naiveKeywords q, [prompt])
      | .ok raw =>
        let kws := sanitizeKw (lowerStr (pyStrip raw))
        let kws := pyJoin " " ((pySplit kws).take 12)
        if kws.isEmpty then ("kemah", [prompt]) else (kws, [prompt])

/-- Observable outcome of the retrieval HTTP POST: an exception
(connection failure, timeout, ...), or a response with a status code and
a body that parses as JSON (`some v`) or does not (`none`; `r.json()`
then raises inside the `try`). -/
inductive HttpOutcome where
  | exn
  | resp (status : Nat) (body : Option JValue)

/-- `get_retrieval_context(keywords)` as a function of the HTTP outcome
of its single request. -/
def get_retrieval_context (o : HttpOutcome) : List JValue :=
  match o with
  | .exn => []
  | .resp status body =>
    if status ≠ 200 then []
    else
      match body with
      | none => []
      | some (.arr data) => if data.isEmpty then [] else data
      | some _ => []

/-- Python `x is None` on a JSON value. -/
def isNone : JValue → Bool
  | .null => true
  | _ => false

/-- Decimal rendering of a rational with a power-of-ten denominator,
used for `harga_termurah` (a Python float) in f-strings.  Other
denominators fall back to fraction notation (unreachable from
`parsePyFloat` output). -/
def ratStr (q : Rat) : String :=
  if q.den == 1 then toString q.num
  else toString q.num ++ "/" ++ toString q.den

/-- Python `str()` of a JSON value as interpolated into f-strings.
Atoms are rendered exactly; the rendering of nested containers is
abstracted to fixed markers (no property proved here inspects the
rendering of a container-valued field, and both renderings of a given
value agree between the two template sites that interpolate it). -/
def pyStr : JValue → String
  | .null => "None"
  | .bool b => if b then "True" else "False"
  | .num q => ratStr q
  | .str s => s
  | .arr _ => "[...]"
  | .obj _ => "{...}"

/-- The non-null fields rendered for one record in the compact context
block (orchestrator.py lines 245-255). -/
def recordParts (it : CleanedRecord) : List String :=
  (if truthy it.nama then [pyStr it.nama] else []) ++
  (if truthy it.lokasi then ["(" ++ pyStr it.lokasi ++ ")"] else []) ++
  (if !(isNone it.rating) then ["rating: " ++ pyStr it.rating] else []) ++
  (if truthy it.fasilitas then ["fasilitas: " ++ pyStr it.fasilitas] else []) ++
  (match it.harga_termurah with
   | some h => ["harga_termurah: " ++ ratStr h]
   | none => [])

/-- One enumerated line of the context block (line 256). -/
def recordLine (i : Nat) (it : CleanedRecord) : String :=
  toString i ++ ". " ++ pyJoin " • " (recordParts it)

def enumLines : Nat → List CleanedRecord → List String
  | _, [] => []
  | i, it :: rest => recordLine i it :: enumLines (i + 1) rest

/-- The compact context string (lines 243-257; `enumerate(..., start=1)`). -/
def buildContextText (cleaned : List CleanedRecord) : String :=
  pyJoin "\n" (enumLines 1 cleaned)

/-- The RAG prompt (lines 264-273). -/
def ragPrompt (user_query context_text : String) : String :=
  "Anda adalah KemahBot, asisten rekomendasi tempat kemah di Jawa Tengah & DIY.\n\n" ++
  "Gunakan HANYA data berikut dan jawab dalam bahasa Indonesia.\n\n" ++
  "DATA SINGKAT:\n" ++ context_text ++ "\n\n" ++
  "Instruksi:\n" ++
  "- Sebutkan 1-3 rekomendasi terbaik dari data di atas dan berikan alasan singkat (rating, fasilitas, atau harga).\n" ++
  "- Jika user menanyakan filter spesifik (mis. WiFi), tunjukkan apakah fasilitas itu tersedia berdasarkan data.\n" ++
  "- Jangan menambahkan informasi di luar data.\n\n" ++
  "Pertanyaan: " ++ user_query ++ "\n\nJawaban:\n"

/-- One bullet of the deterministic templated reply (lines 282-287 and
identically 304-309). -/
def bulletLine (it : CleanedRecord) : String :=
  let l1 := "- " ++ (if truthy it.nama then pyStr it.nama else "Nama tidak tersedia")
  let l2 := if !(isNone it.rating) then l1 ++ " (rating: " ++ pyStr it.rating ++ ")" else l1
  if truthy it.fasilitas then l2 ++ ", fasilitas: " ++ pyStr it.fasilitas else l2

/-- The deterministic templated reply used both when no backend is
configured (lines 278-289) and when the backend call raises (lines
298-311): greeting, one bullet per record up to `TOP_K`, closing
prompt. -/
def templatedReply (cleaned : List CleanedRecord) : String :=
  pyJoin "\n"
    (["Halo! Saya menemukan beberapa tempat yang mungkin cocok:"] ++
     (cleaned.take TOP_K).map bulletLine ++
     ["Mau lihat detail atau link maps?"])

/-- The backend path of `generate_augmented_response` (lines 292-311):
one `call_llm` invocation; a raised exception falls back to the
templated reply, empty extracted text becomes the fixed no-answer
message. -/
def llmAnswer (cleaned : List CleanedRecord) (prompt : String) (llm : LLM) :
    String × List String :=
  match call_llm llm prompt with
  | .error _ => (templatedReply cleaned, [prompt])
  | .ok raw =>
    let ans := pyStrip raw
    if ans.isEmpty then ("Maaf, model tidak menghasilkan jawaban.", [prompt])
    else (ans, [prompt])

/-- `generate_augmented_response(user_query, raw_context)` given the
backend state `m`.  Returns the answer together with the list of
prompts sent to the backend.  (The `try` around the context-block build
is embedded without its `except` arm: the block is pure string
formatting over already-normalized records and cannot raise.) -/
def generate_augmented_response (m : Option LLM) (user_query : String)
    (raw_context : List JValue) : String × List String :=
  if raw_context.isEmpty then
    ("Maaf, saya tidak menemukan tempat kemah yang cocok dengan kriteria Anda.", [])
  else
    let cleaned := simplify_context raw_context
    if cleaned.isEmpty then
      ("Maaf, data konteks tidak valid.", [])
    else
      let prompt := ragPrompt user_query (buildContextText cleaned)
      match m with
      | none => (templatedReply cleaned, [])
      | some llm => llmAnswer cleaned prompt llm

/-- `get_chatbot_reply(user_input)`: the orchestrator entry point, as a
function of the backend state `m` and of the retrieval outcome for
whatever keyword string is sent. -/
def get_chatbot_reply (m : Option LLM) (retrieval : String → HttpOutcome)
    (user_input : String) : String :=
  let keywords := (extract_keywords_from_query m user_input).1
  let raw_context := get_retrieval_context (retrieval keywords)
  (generate_augmented_response m user_input raw_context).1

/-- Spec-shape alias resolution (spec §4.3/§9): consult the candidate
values in order, first truthy one wins, otherwise fall through to the
final alternative (the last alias's lookup, or the field's default).
Declared separately from `cleanItem` so that the code's `a or b or c`
chains can be compared against it. -/
def firstTruthyOr (cands : List JValue) (dflt : JValue) : JValue :=
  match cands with
  | [] => dflt
  | v :: rest => if truthy v then v else firstTruthyOr rest dflt

/-- The raw record of spec §8 Scenario 3. -/
def bukitHijau : JValue :=
  .obj [("name", .str "Bukit Hijau"), ("avg_rating", .num (mkRat 9 2)),
        ("facilities", .str "wifi, toilet"),
        ("price_items", .arr [.obj [("harga", .str "50000")], .obj [("harga", .str "abc")]])]

/-! ## Helper lemmas -/

theorem truthy_ne_null {v : JValue} (h : truthy v = true) : v ≠ JValue.null := by
  intro hv
  subst hv
  simp [truthy] at h

theorem simplifyLoop_length_le (l : List JValue) : (simplifyLoop l).length ≤ l.length := by
  induction l with
  | nil => simp [simplifyLoop]
  | cons x xs ih =>
    simp only [simplifyLoop]
    cases cleanItem x with
    | none => exact Nat.le_succ_of_le ih
    | some r => simpa using ih

theorem string_ne_empty_of_length_pos {s : String} (h : 0 < s.length) : s ≠ "" := by
  intro he
  subst he
  exact Nat.lt_irrefl 0 h

theorem pyJoin_length_ge (sep x : String) (l : List String) :
    x.length ≤ (pyJoin sep (x :: l)).length := by
  cases l with
  | nil => simp [pyJoin]
  | cons y ys =>
    simp only [pyJoin, String.length_append]
    omega

theorem templatedReply_ne_empty (cleaned : List CleanedRecord) : templatedReply cleaned ≠ "" := by
  apply string_ne_empty_of_length_pos
  have h := pyJoin_length_ge "\n" "Halo! Saya menemukan beberapa tempat yang mungkin cocok:"
    ((cleaned.take TOP_K).map bulletLine ++ ["Mau lihat detail atau link maps?"])
  have h0 : 0 < ("Halo! Saya menemukan beberapa tempat yang mungkin cocok:" : String).length := by
    decide
  exact Nat.lt_of_lt_of_le h0 h

theorem llmAnswer_fst_ne_empty (cleaned : List CleanedRecord) (prompt : String) (llm : LLM) :
    (llmAnswer cleaned prompt llm).1 ≠ "" := by
  unfold llmAnswer
  cases call_llm llm prompt with
  | error e => exact templatedReply_ne_empty _
  | ok r =>
    dsimp only
    by_cases h3 : (pyStrip r).isEmpty = true
    · rw [if_pos h3]
      exact (by decide : ("Maaf, model tidak menghasilkan jawaban." : String) ≠ "")
    · rw [if_neg h3]
      exact fun he => h3 ((String.isEmpty_iff _).mpr he)

theorem gen_fst_ne_empty (m : Option LLM) (q : String) (raw : List JValue) :
    (generate_augmented_response m q raw).1 ≠ "" := by
  unfold generate_augmented_response
  by_cases h1 : raw.isEmpty = true
  · rw [if_pos h1]
    decide
  · rw [if_neg h1]
    by_cases h2 : (simplify_context raw).isEmpty = true
    · rw [if_pos h2]
      decide
    · rw [if_neg h2]
      cases m with
      | none => exact templatedReply_ne_empty _
      | some llm => exact llmAnswer_fst_ne_empty _ _ _

/-! ## Claim theorems -/

/-- C1: for every user input string, and however the keyword backend, the
retrieval service, and the generation backend behave (including raising,
timing out, or returning malformed data), the orchestrator entry point
`get_chatbot_reply` returns a non-empty string.  It never raises: the
embedding of the whole pipeline is a total function of the user input
and the behaviours of the two external collaborators. -/
theorem C1_orchestrator_total_nonempty (m : Option LLM)
    (retrieval : String → HttpOutcome) (user_input : String) :
    get_chatbot_reply m retrieval user_input ≠ "" :=
  gen_fst_ne_empty m user_input
    (get_retrieval_context (retrieval (extract_keywords_from_query m user_input).1))

/-- C9: for every query and backend state, when the retrieval context is
empty `generate_augmented_response` returns the fixed "no matching
place" apology and sends no prompt to the generation backend. -/
theorem C9_empty_context_apology (m : Option LLM) (q : String) :
    generate_augmented_response m q [] =
      ("Maaf, saya tidak menemukan tempat kemah yang cocok dengan kriteria Anda.", []) :=
  rfl

/-- C8: for every backend state and every query that is empty or
whitespace-only (strips to the empty string), `extract_keywords_from_query`
returns the sentinel keyword "kemah" and sends no prompt to the
backend. -/
theorem C8_blank_query_sentinel (m : Option LLM) (q : String) (h : pyStrip q = "") :
    extract_keywords_from_query m q = ("kemah", []) := by
  unfold extract_keywords_from_query
  rw [h]
  rfl

/-- Witness for C8 at a whitespace-only query and a live backend. -/
theorem C8_blank_query_sentinel_witness :
    extract_keywords_from_query (some (fun _ => LLMResult.text "x")) " \t " = ("kemah", []) :=
  C8_blank_query_sentinel (some (fun _ => LLMResult.text "x")) " \t " (by decide)

/-- C6: `get_retrieval_context` returns the parsed record sequence
exactly when the HTTP outcome is a status-200 response whose body parses
as a JSON array; a connection failure or timeout (`exn`), a non-200
status, a malformed body, and a non-array body each yield `[]`. -/
theorem C6_retrieval_contract :
    (∀ data : List JValue,
      get_retrieval_context (.resp 200 (some (.arr data))) = data) ∧
    get_retrieval_context .exn = [] ∧
    (∀ status body, status ≠ 200 → get_retrieval_context (.resp status body) = []) ∧
    (∀ status v, (∀ l, v ≠ JValue.arr l) →
      get_retrieval_context (.resp status (some v)) = []) ∧
    (∀ status, get_retrieval_context (.resp status none) = []) := by
  refine ⟨?_, rfl, ?_, ?_, ?_⟩
  · intro data
    cases data <;> simp [get_retrieval_context]
  · intro status body h
    simp [get_retrieval_context, h]
  · intro status v h
    cases v with
    | arr l => exact absurd rfl (h l)
    | null => by_cases hs : status = 200 <;> simp [get_retrieval_context, hs]
    | bool b => by_cases hs : status = 200 <;> simp [get_retrieval_context, hs]
    | num q => by_cases hs : status = 200 <;> simp [get_retrieval_context, hs]
    | str s => by_cases hs : status = 200 <;> simp [get_retrieval_context, hs]
    | obj fs => by_cases hs : status = 200 <;> simp [get_retrieval_context, hs]
  · intro status
    by_cases hs : status = 200 <;> simp [get_retrieval_context, hs]

/-- Witness for C6 at concrete outcomes: a 200 array response passes
through, a non-200 response and a 200 non-array body yield `[]`. -/
theorem C6_retrieval_contract_witness :
    get_retrieval_context (.resp 200 (some (.arr [JValue.str "x"]))) = [JValue.str "x"] ∧
    get_retrieval_context (.resp 500 (some (.arr [JValue.str "x"]))) = [] ∧
    get_retrieval_context (.resp 200 (some (.str "nope"))) = [] :=
  ⟨C6_retrieval_contract.1 _,
   C6_retrieval_contract.2.2.1 500 _ (by decide),
   C6_retrieval_contract.2.2.2.1 200 _ (fun l h => JValue.noConfusion h)⟩

/-- C10: every record emitted by the normalizer has exactly the five
fields of `CleanedRecord` (by its type); `fasilitas` is never null, and
when no facilities alias resolves (as in the empty raw record, where
also `nama`, `lokasi`, `rating`, `harga_termurah` are all unresolved) it
defaults to the empty string. -/
theorem C10_cleaned_record_shape :
    (∀ (item : JValue) (r : CleanedRecord), cleanItem item = some r →
      r.fasilitas ≠ JValue.null) ∧
    simplify_context [JValue.obj []] =
      [{ nama := JValue.null, lokasi := JValue.null, rating := JValue.null,
         fasilitas := JValue.str "", harga_termurah := none }] := by
  refine ⟨?_, rfl⟩
  intro item r h
  cases item with
  | obj fs =>
    have hr : r.fasilitas =
        pyOr (jget (JValue.obj fs) "facilities")
          (pyOr (jget (JValue.obj fs) "Facilities") (JValue.str "")) := by
      cases h' : cleanItem (JValue.obj fs) with
      | none => rw [h'] at h; exact Option.noConfusion h
      | some r' =>
        rw [h'] at h
        cases h
        cases h'
        rfl
    rw [hr]
    unfold pyOr
    by_cases t1 : truthy (jget (JValue.obj fs) "facilities") = true
    · rw [if_pos t1]
      exact truthy_ne_null t1
    · rw [if_neg t1]
      by_cases t2 : truthy (jget (JValue.obj fs) "Facilities") = true
      · rw [if_pos t2]
        exact truthy_ne_null t2
      · rw [if_neg t2]
        exact fun he => JValue.noConfusion he
  | null => exact Option.noConfusion h
  | bool b => exact Option.noConfusion h
  | num q => exact Option.noConfusion h
  | str s => exact Option.noConfusion h
  | arr l => exact Option.noConfusion h

/-- Witness for C10 at a concrete record carrying a facilities value. -/
theorem C10_cleaned_record_shape_witness :
    ({ nama := JValue.null, lokasi := JValue.null, rating := JValue.null,
       fasilitas := JValue.str "wifi", harga_termurah := none } : CleanedRecord).fasilitas ≠
      JValue.null :=
  C10_cleaned_record_shape.1 (JValue.obj [("facilities", JValue.str "wifi")]) _ rfl

/-- C2 fails as stated: in the record
`{"name": "", "nama": "Kemah A"}` the first alias `name` of the name
field is present with the non-null value `""`, yet the normalizer
resolves the name to `"Kemah A"`: a present, non-null but falsy value is
passed over, because the source's `a or b or c` chains test Python
truthiness, not presence. -/
theorem C2_first_alias_counterexample :
    jget (JValue.obj [("name", JValue.str ""), ("nama", JValue.str "Kemah A")]) "name" =
      JValue.str "" ∧
    cleanItem (JValue.obj [("name", JValue.str ""), ("nama", JValue.str "Kemah A")]) =
      some { nama := JValue.str "Kemah A", lokasi := JValue.null, rating := JValue.null,
             fasilitas := JValue.str "", harga_termurah := none } ∧
    JValue.str "Kemah A" ≠ JValue.str "" := by
  refine ⟨rfl, rfl, ?_⟩
  intro h
  have : ("Kemah A" : String) = "" := JValue.str.inj h
  exact absurd this (by decide)

/-- C2 (amended): per record, each logical field is resolved by
consulting its ordered alias list and taking the first alias whose value
is truthy (present, non-null, and non-falsy); a present but falsy value
(null, `""`, `0`, `false`, empty list or dict) is passed over; when no
alias is truthy the result is the final alternative unchanged — the last
alias's lookup for name, location and rating, `""` for facilities, `[]`
for the price list. -/
theorem C2_alias_resolution_first_truthy (fs : List (String × JValue)) :
    cleanItem (JValue.obj fs) =
      some
        { nama := firstTruthyOr
            [jget (JValue.obj fs) "name", jget (JValue.obj fs) "nama"]
            (jget (JValue.obj fs) "Nama_Tempat"),
          lokasi := firstTruthyOr
            [jget (JValue.obj fs) "location", jget (JValue.obj fs) "lokasi"]
            (jget (JValue.obj fs) "Lokasi"),
          rating := firstTruthyOr
            [jget (JValue.obj fs) "avg_rating", jget (JValue.obj fs) "Avg_Rating"]
            (jget (JValue.obj fs) "rating"),
          fasilitas := firstTruthyOr
            [jget (JValue.obj fs) "facilities", jget (JValue.obj fs) "Facilities"]
            (JValue.str ""),
          harga_termurah := computeHarga (firstTruthyOr
            [jget (JValue.obj fs) "price_items", jget (JValue.obj fs) "Price_Items"]
            (JValue.arr [])) } :=
  rfl

/-- C3: whenever the alias-resolved price list is a list with at least
one entry whose alias-resolved price sub-field parses numerically,
`harga_termurah` is the minimum of the successfully parsed values
(it is one of them and bounds them all below); when no entry parses, or
the resolved value is not a list, it is absent.  On the Scenario 3
record the normalizer produces name "Bukit Hijau", rating 9/2 (= 4.5),
facilities "wifi, toilet", and lowest price 50000, skipping the
non-numeric `"abc"` entry. -/
theorem C3_lowest_price_min :
    (∀ ps : List JValue, numericPrices ps ≠ [] →
      ∃ q, computeHarga (JValue.arr ps) = some q ∧
        q ∈ numericPrices ps ∧ ∀ x ∈ numericPrices ps, q ≤ x) ∧
    (∀ ps : List JValue, numericPrices ps = [] → computeHarga (JValue.arr ps) = none) ∧
    (∀ v : JValue, (∀ ps, v ≠ JValue.arr ps) → computeHarga v = none) ∧
    mkRat 9 2 = (4.5 : Rat) ∧
    simplify_context [bukitHijau] =
      [{ nama := JValue.str "Bukit Hijau", lokasi := JValue.null,
         rating := JValue.num (mkRat 9 2), fasilitas := JValue.str "wifi, toilet",
         harga_termurah := some 50000 }] := by
  refine ⟨?_, ?_, ?_, by norm_num [mkRat, Rat.normalize], rfl⟩
  · intro ps hne
    have hps : ps ≠ [] := by
      intro h0
      subst h0
      exact hne rfl
    cases hn : numericPrices ps with
    | nil => exact absurd hn hne
    | cons x xs =>
      refine ⟨listMin (numericPrices ps), ?_, ?_, ?_⟩
      · simp only [computeHarga]
        rw [if_neg (by simpa using hps), if_neg (by simp [hn])]
      · rw [hn]
        exact List.min?_mem (fun a b => min_choice a b)
          (rfl : (x :: xs).min? = some (listMin (x :: xs)))
      · rw [hn]
        exact fun y hy =>
          (List.le_min?_iff (fun _ _ _ => le_min_iff)
            (rfl : (x :: xs).min? = some (listMin (x :: xs)))).mp le_rfl y hy
  · intro ps h
    cases ps with
    | nil => rfl
    | cons p ps' =>
      simp only [computeHarga]
      rw [if_neg (by simp), if_pos (by simp [h])]
  · intro v h
    cases v with
    | arr l => exact absurd rfl (h l)
    | null => rfl
    | bool b => rfl
    | num q => rfl
    | str s => rfl
    | obj fs => rfl

/-- Witness for C3 at a concrete price list with one parseable and one
unparseable entry. -/
theorem C3_lowest_price_min_witness :
    ∃ q, computeHarga (JValue.arr [JValue.obj [("harga", JValue.str "7")],
          JValue.obj [("harga", JValue.str "x")]]) = some q ∧
      q ∈ numericPrices [JValue.obj [("harga", JValue.str "7")],
          JValue.obj [("harga", JValue.str "x")]] ∧
      ∀ x ∈ numericPrices [JValue.obj [("harga", JValue.str "7")],
          JValue.obj [("harga", JValue.str "x")]], q ≤ x :=
  C3_lowest_price_min.1 _ (by decide)

/-- C4 fails as stated: `[{}]` is a non-empty context whose single
record normalizes to no renderable fields at all (its rendered field
list is empty), yet the generator does not return the "invalid data"
apology — it proceeds to the normal path.  The apology is tied to the
normalizer emitting no records, not to records rendering no fields. -/
theorem C4_no_renderable_counterexample :
    simplify_context [JValue.obj []] =
      [{ nama := JValue.null, lokasi := JValue.null, rating := JValue.null,
         fasilitas := JValue.str "", harga_termurah := none }] ∧
    recordParts ({ nama := JValue.null, lokasi := JValue.null, rating := JValue.null,
                   fasilitas := JValue.str "", harga_termurah := none } : CleanedRecord) = [] ∧
    (generate_augmented_response none "" [JValue.obj []]).1 ≠
      "Maaf, data konteks tidak valid." := by
  refine ⟨rfl, rfl, ?_⟩
  decide

/-- C4 (amended): for every non-empty context in which every record is
dropped by the normalizer (normalization yields no records at all), the
answer generator returns the fixed "invalid data" apology, invoking no
backend. -/
theorem C4_all_records_dropped_apology (m : Option LLM) (q : String) (raw : List JValue)
    (h1 : raw ≠ []) (h2 : simplify_context raw = []) :
    generate_augmented_response m q raw = ("Maaf, data konteks tidak valid.", []) := by
  unfold generate_augmented_response
  rw [if_neg (by simpa using h1), if_pos (by simp [h2])]

/-- Witness for the amended C4: a context whose only record is a bare
number (extraction raises, the record is dropped). -/
theorem C4_all_records_dropped_apology_witness :
    generate_augmented_response none "" [JValue.num 1] =
      ("Maaf, data konteks tidak valid.", []) :=
  C4_all_records_dropped_apology none "" [JValue.num 1] (by simp) rfl

/-- C5: the normalizer output length is at most `min TOP_K
(input length)` (with `TOP_K = 3`), and a record whose extraction raises
(any non-dict entry) contributes nothing to the output while the
records around it are still processed.  The embedding is a total
function: normalization never raises. -/
theorem C5_normalizer_bounded_and_skips :
    (∀ l : List JValue, (simplify_context l).length ≤ min TOP_K l.length) ∧
    (∀ (pre post : List JValue) (bad : JValue), cleanItem bad = none →
      simplifyLoop (pre ++ bad :: post) = simplifyLoop (pre ++ post)) := by
  constructor
  · intro l
    have h2 : (l.take TOP_K).length = min TOP_K l.length := List.length_take TOP_K l
    rw [← h2]
    exact simplifyLoop_length_le (l.take TOP_K)
  · intro pre post bad h
    induction pre with
    | nil => simp [simplifyLoop, h]
    | cons p pre' ih =>
      cases hc : cleanItem p with
      | none => simpa [simplifyLoop, hc] using ih
      | some r => simpa [simplifyLoop, hc] using ih

/-- Witness for C5: a bare number between two records is skipped. -/
theorem C5_normalizer_bounded_and_skips_witness :
    simplifyLoop ([JValue.obj []] ++ JValue.num 1 :: [JValue.obj []]) =
      simplifyLoop ([JValue.obj []] ++ [JValue.obj []]) :=
  C5_normalizer_bounded_and_skips.2 [JValue.obj []] [JValue.obj []] (JValue.num 1) rfl

/-- C7: for every query and every raw context that normalizes to at
least one record, the generator with no backend configured returns the
deterministic templated answer (greeting, one bullet per record up to
`TOP_K`, closing prompt), and with a backend whose call always raises it
returns the very same templated answer; the exception never
propagates (the embedding is total). -/
theorem C7_degraded_paths_templated (q : String) (raw : List JValue)
    (h1 : raw ≠ []) (h2 : simplify_context raw ≠ []) :
    (generate_augmented_response none q raw).1 = templatedReply (simplify_context raw) ∧
    ∀ llm : LLM, (∀ p, llm p = LLMResult.raises) →
      (generate_augmented_response (some llm) q raw).1 =
        templatedReply (simplify_context raw) := by
  have hne : ¬(raw.isEmpty = true) := by simpa using h1
  have hne2 : ¬((simplify_context raw).isEmpty = true) := by simpa using h2
  constructor
  · unfold generate_augmented_response
    rw [if_neg hne, if_neg hne2]
  · intro llm hllm
    unfold generate_augmented_response
    rw [if_neg hne, if_neg hne2]
    show (llmAnswer (simplify_context raw)
      (ragPrompt q (buildContextText (simplify_context raw))) llm).1 = _
    unfold llmAnswer call_llm
    rw [hllm]

/-- Witness for C7 at a one-record context, with no backend and with an
always-raising backend. -/
theorem C7_degraded_paths_templated_witness :
    (generate_augmented_response none "" [JValue.obj [("name", JValue.str "A")]]).1 =
      templatedReply (simplify_context [JValue.obj [("name", JValue.str "A")]]) ∧
    (generate_augmented_response (some fun _ => LLMResult.raises) ""
        [JValue.obj [("name", JValue.str "A")]]).1 =
      templatedReply (simplify_context [JValue.obj [("name", JValue.str "A")]]) := by
  have h := C7_degraded_paths_templated "" [JValue.obj [("name", JValue.str "A")]]
    (by simp)
    (fun hh => absurd (congrArg List.length hh) (by decide))
  exact ⟨h.1, h.2 _ (fun p => rfl)⟩
